import Mathlib

/-!
Verification of the block-polling / event-detection bot (`bot.py`).

The Python source is shallowly embedded: pure expressions become Lean
functions, the asyncio loops become explicit functions over event scripts
(each script entry records the outcome of one `await` point), machine
integers are `Nat`/`Int`, exact `decimal.Decimal` values become scaled
integers, and Python exceptions become `Option`/explicit outcome flags.
-/

namespace Bot

/-! ## Configuration constants (bot.py lines 16–28) -/

/-- `TOKEN_CONTRACT_ADDRESS = "0x2119de8f257d27662991198389E15Bf8d1F4aB24"` (bot.py:21). -/
def TOKEN_CONTRACT_ADDRESS : String := "0x2119de8f257d27662991198389E15Bf8d1F4aB24"

/-- `TOKEN_NAME = "AgamaCoin"` (bot.py:24). -/
def TOKEN_NAME : String := "AgamaCoin"

/-- `REMINDER_INTERVAL_SECONDS = 600` (bot.py:28). -/
def REMINDER_INTERVAL_SECONDS : Nat := 600

/-! ## The floating-point constant `MIN_PURCHASE_BNB = 0.025` (bot.py:22)
and `MIN_PURCHASE_WEI = Web3.to_wei(MIN_PURCHASE_BNB, 'ether')` (bot.py:27).

`Web3.to_wei` handles a float argument by `decimal.Decimal(str(number))`,
i.e. it goes through CPython's float `repr` (the shortest decimal string
that parses back to the same IEEE-754 binary64 value), then multiplies by
`10^18` in exact decimal arithmetic and takes `int(...)`. -/

/-- Round-half-even (banker's rounding) of a rational to an integer, the
rounding used both by IEEE-754 round-to-nearest and by Python `decimal`. -/
def roundHalfEven (q : ℚ) : ℤ :=
  let f : ℤ := ⌊q⌋
  let r : ℚ := q - (f : ℚ)
  if r < 1/2 then f
  else if 1/2 < r then f + 1
  else if f % 2 = 0 then f else f + 1

/-- Round-to-nearest-even at the binade `[2^(-6), 2^(-5))` of `0.025`: a
binary64 value there is `m · 2^(-58)` with `2^52 ≤ m < 2^53`.  This is the
map applied by the Python parser to the literal `0.025` and by the parser
again when `repr`'s output is read back. -/
def nearestDouble58 (q : ℚ) : ℚ := (roundHalfEven (q * 2 ^ 58) : ℚ) / 2 ^ 58

/-- The IEEE-754 binary64 value of the Python literal `0.025` (bot.py:22). -/
def MIN_PURCHASE_BNB_float : ℚ := 7205759403792794 / 2 ^ 58

/-- An exact decimal value `m · 10^(-e)` (`decimal.Decimal` restricted to
the finite non-negative values this program produces). -/
structure Dec where
  m : Nat
  e : Nat
  deriving DecidableEq, Repr

/-- The rational value of a decimal. -/
def Dec.toRat (d : Dec) : ℚ := (d.m : ℚ) / 10 ^ d.e

/-- `decimal.Decimal(repr(0.025)) = Decimal("0.025") = 25 · 10^(-3)`:
the value `Web3.to_wei` actually scales. -/
def MIN_PURCHASE_BNB_dec : Dec := ⟨25, 3⟩

/-- `Web3.to_wei(d, 'ether') = int(d * 10^18)` in exact decimal
arithmetic; `int` truncates toward zero (exact for `e ≤ 18`). -/
def to_wei_ether (d : Dec) : Nat :=
  if d.e ≤ 18 then d.m * 10 ^ (18 - d.e) else d.m / 10 ^ (d.e - 18)

/-- `MIN_PURCHASE_WEI = Web3.to_wei(MIN_PURCHASE_BNB, 'ether')` (bot.py:27). -/
def MIN_PURCHASE_WEI : Nat := to_wei_ether MIN_PURCHASE_BNB_dec

/-! ## Data model -/

/-- A transaction as consumed by the loop: `tx.to` (null for
contract-creation transactions), `tx.value` in wei, `tx.hash` as hex.
The Python attribute `to` is a Lean keyword, hence the guillemets. -/
structure Tx where
  «to» : Option String
  value : Nat
  hash : String
  deriving DecidableEq, Repr

/-- A fetched block: the ordered list of its (full) transactions. -/
structure PyBlock where
  transactions : List Tx
  deriving DecidableEq, Repr

/-- ASCII lower-casing of one character: Python `str.lower` restricted to
the ASCII range, which is all the program compares (hex addresses). -/
def lowerChar (c : Char) : Char :=
  if 65 ≤ c.toNat && c.toNat ≤ 90 then Char.ofNat (c.toNat + 32) else c

/-- Python `s.lower()` for ASCII strings. -/
def pyLower (s : String) : String := ⟨s.data.map lowerChar⟩

/-- The match predicate applied to each transaction in the poll loop
(bot.py:200):
`tx.to and tx.to.lower() == TOKEN_CONTRACT_ADDRESS.lower() and tx.value >= MIN_PURCHASE_WEI`.
Python truthiness makes `None` (and the empty string) short-circuit to a
falsy result rather than an attribute error. -/
def txMatches (tx : Tx) : Bool :=
  match tx.«to» with
  | none => false
  | some a =>
      !a.isEmpty && (pyLower a == pyLower TOKEN_CONTRACT_ADDRESS)
        && decide (MIN_PURCHASE_WEI ≤ tx.value)

/-! ## Display conversion (bot.py:201 and bot.py:140–149) -/

/-- `w3.from_wei(value, 'ether')` = `Decimal(value) / Decimal(10^18)`,
exact for the magnitudes involved: the decimal `value · 10^(-18)`. -/
def from_wei (value : Nat) : Dec := ⟨value, 18⟩

/-- Python `f"{x:.4f}"` on a non-negative decimal: rescale to 4 fractional
digits with half-even rounding.  `n` is the rounded value scaled by `10^4`. -/
def scale4HalfEven (d : Dec) : Nat :=
  if d.e ≤ 4 then d.m * 10 ^ (4 - d.e)
  else
    let D := 10 ^ (d.e - 4)
    let q := d.m / D
    let r := d.m % D
    if 2 * r < D then q
    else if D < 2 * r then q + 1
    else if q % 2 = 0 then q else q + 1

/-- Left-pad a numeral string with zeros to 4 characters. -/
def pad4 (s : String) : String := ⟨List.replicate (4 - s.length) '0' ++ s.data⟩

/-- Python `f"{x:.4f}"` for a non-negative decimal `x`. -/
def formatDec4 (d : Dec) : String :=
  let n := scale4HalfEven d
  toString (n / 10 ^ 4) ++ "." ++ pad4 (toString (n % 10 ^ 4))

/-- `bnb_amount_formatted = f"{bnb_amount:.4f}"` (bot.py:142). -/
def bnb_amount_formatted (bnb_amount : Dec) : String := formatDec4 bnb_amount

/-- The caption built by `send_telegram_alert` (bot.py:143–148). -/
def alert_message_text (bnb_amount : Dec) : String :=
  "🚀 *New " ++ TOKEN_NAME ++ " Buy Alert!* 🚀\n\n" ++
  "A new investor has just joined the AgamaCoin family!\n\n" ++
  "💰 *Amount:* " ++ bnb_amount_formatted bnb_amount ++ " BNB\n\n" ++
  "Let\x27s give them a warm welcome! 🔥"

/-! ## Dispatch (bot.py:140–154) -/

/-- What one call to `send_telegram_alert` did: the caption handed to
`bot.send_photo` and the log lines printed. -/
structure SendOutcome where
  caption : String
  log : List String
  deriving DecidableEq, Repr

/-- `send_telegram_alert` (bot.py:140–154): formats the alert and attempts
`bot.send_photo`; a `TelegramError` is caught and logged (bot.py:153–154),
so the function returns normally whether or not the send succeeded.
`sendOk` is the outcome of the messaging collaborator. -/
def send_telegram_alert (sendOk : Bool) (bnb_amount : Dec) (tx_hash : String) :
    SendOutcome :=
  ⟨alert_message_text bnb_amount,
   if sendOk then ["✅ Alert sent for transaction: " ++ tx_hash]
   else ["❌ Telegram API Error sending alert"]⟩

/-! ## Poll-loop block processing (bot.py:192–206) -/

/-- The inner transaction loop over one fetched block (bot.py:199–203):
each matching transaction is logged and handed to `send_telegram_alert`.
Returns the hashes of the transactions for which a dispatch was attempted,
and the log. `sendOk` gives the messaging outcome per transaction hash. -/
def processBlockTxs (sendOk : String → Bool) : List Tx → List String × List String
  | [] => ([], [])
  | tx :: rest =>
    if txMatches tx then
      let logHere := ("✔️  Valid purchase detected! Hash: " ++ tx.hash) ::
        (send_telegram_alert (sendOk tx.hash) (from_wei tx.value) tx.hash).log
      let tail := processBlockTxs sendOk rest
      (tx.hash :: tail.1, logHere ++ tail.2)
    else processBlockTxs sendOk rest

/-- The per-block-hash loop body (bot.py:195–205): `get_block` may raise
(`fetch h = none`); the `except Exception` at bot.py:204–205 logs and
continues with the next hash.  A block that is `None` or has no
transactions (the guard at bot.py:198) contributes nothing, which the
`some` branch models by iterating an empty transaction list. -/
def processEntries (fetch : String → Option PyBlock) (sendOk : String → Bool) :
    List String → List String × List String
  | [] => ([], [])
  | h :: rest =>
    let cur :=
      match fetch h with
      | none => (([] : List String), ["Error processing block " ++ h])
      | some b => processBlockTxs sendOk b.transactions
    let tail := processEntries fetch sendOk rest
    (cur.1 ++ tail.1, cur.2 ++ tail.2)

/-- The filter created by `w3.eth.create_filter('latest')` (bot.py:189):
it accumulates the hashes of new blocks since the last poll. -/
structure BlockFilter where
  pending : List String
  deriving DecidableEq, Repr

/-- `block_filter.get_new_entries()` (bot.py:194): returns the accumulated
entries and clears them — an entry is delivered exactly once, whether or
not processing it succeeds. -/
def get_new_entries (f : BlockFilter) : List String × BlockFilter :=
  (f.pending, ⟨[]⟩)

/-- The outcome of one iteration of the `while True` loop (bot.py:193–206). -/
structure IterResult where
  filter : BlockFilter
  fetched : List String
  attempted : List String
  log : List String
  deriving DecidableEq, Repr

/-- One iteration of the poll loop (bot.py:193–206): drain the filter and
process every returned hash.  `fetched` records the hashes passed to
`w3.eth.get_block`, `attempted` the transaction hashes handed to
`send_telegram_alert`. -/
def pollIteration (fetch : String → Option PyBlock) (sendOk : String → Bool)
    (f : BlockFilter) : IterResult :=
  let drained := get_new_entries f
  let r := processEntries fetch sendOk drained.1
  ⟨drained.2, drained.1, r.1, r.2⟩

/-! ## The price-alert loop's outer control flow (bot.py:179–213) -/

/-- What happens at the loop's `await` points in one iteration of the
`while True` (bot.py:193–206): either `get_new_entries` returns a batch of
hashes and the iteration (including `asyncio.sleep(2)`) completes, or a
non-cancellation exception escapes the iteration, or `CancelledError` is
raised. -/
inductive LoopSignal where
  | entries (blocks : List String)
  | exn
  | cancel
  deriving DecidableEq, Repr

/-- How `price_alert_loop` exits. -/
inductive LoopExit where
  | connectFailed
  | cancelled
  | errorReturn
  | scriptEnd
  deriving DecidableEq, Repr

/-- A finished (or truncated, `scriptEnd`) run of `price_alert_loop`. -/
structure RunResult where
  exit : LoopExit
  connects : Nat
  attempted : List String
  log : List String
  deriving DecidableEq, Repr

/-- The `try: while True: ...` body with its two `except` arms and the
`finally` (bot.py:192–213).  On a non-cancellation exception the code
prints `... Reconnecting in 15s...`, sleeps 15 s, and then falls through
to `finally` and returns — there is no surrounding loop, so no recursive
call appears in the `exn` arm. -/
def priceAlertGo (fetch : String → Option PyBlock) (sendOk : String → Bool) :
    List LoopSignal → LoopExit × List String × List String
  | [] => (.scriptEnd, [], [])
  | .entries bs :: rest =>
    let r := processEntries fetch sendOk bs
    let t := priceAlertGo fetch sendOk rest
    (t.1, r.1 ++ t.2.1, r.2 ++ t.2.2)
  | .exn :: _ =>
    (.errorReturn, [],
     ["An error occurred in the price alert loop. Reconnecting in 15s...",
      "Price alert loop has shut down."])
  | .cancel :: _ =>
    (.cancelled, [],
     ["⏹️ Price alert loop cancelled.", "Price alert loop has shut down."])

/-- `price_alert_loop` (bot.py:179–213): connect once; if `is_connected()`
is false, log and return (bot.py:184–186); otherwise create the block
filter and run the polling loop.  `connects` counts how many times the
connect phase (bot.py:181–190) is entered — the function body contains it
exactly once, with no path back into it. -/
def price_alert_loop (connected : Bool) (fetch : String → Option PyBlock)
    (sendOk : String → Bool) (script : List LoopSignal) : RunResult :=
  if connected then
    let g := priceAlertGo fetch sendOk script
    ⟨g.1, 1, g.2.1,
     ["Connecting to BSC for price alerts...",
      "✅ Successfully connected to BSC. Creating block filter...",
      "✅ Block filter created. Monitoring for buys..."] ++ g.2.2⟩
  else
    ⟨.connectFailed, 1, [],
     ["Connecting to BSC for price alerts...",
      "❌ Failed to connect to the BSC node for price alerts."]⟩

/-! ## The reminder loop (bot.py:167–177) -/

/-- `reminder_loop` (bot.py:167–177): `while True: await
send_reminder_message(bot); await asyncio.sleep(REMINDER_INTERVAL_SECONDS)`.
The script records the outcome of each sleep in order: `true` = the
interval elapsed, `false` = `CancelledError` was delivered during the
sleep (a stop request before the interval elapsed).  The script is a
finite prefix of the execution; the returned value is the number of
reminder messages sent during it.  The send precedes the first sleep. -/
def reminder_loop : List Bool → Nat
  | [] => 1
  | true :: rest => 1 + reminder_loop rest
  | false :: _ => 1

/-! ## Task lifecycle: `button_callback` (bot.py:85–137) -/

/-- An `asyncio.Task`: `done` is `Task.done()`; `cancelRequested` records
that `Task.cancel()` was called (the task unwinds strictly later, so
`done` is unchanged by `cancel()` itself). -/
structure TaskHandle where
  id : Nat
  done : Bool
  cancelRequested : Bool
  deriving DecidableEq, Repr

/-- The module-level globals `monitoring_task` and `reminder_task`
(bot.py:32–33), plus a counter used to give each `asyncio.create_task` a
fresh identity. -/
structure BotState where
  monitoring_task : Option TaskHandle
  reminder_task : Option TaskHandle
  nextTaskId : Nat
  deriving DecidableEq, Repr

/-- The `callback_data` values routed by `button_callback`. -/
inductive ButtonAction where
  | main_menu
  | menu_alerts
  | menu_reminders
  | start_monitoring
  | stop_monitoring
  | start_reminder
  | stop_reminder
  deriving DecidableEq, Repr

/-- The guard `task and not task.done()` (bot.py:104, 111, 120, 127). -/
def taskRunning : Option TaskHandle → Bool
  | none => false
  | some t => !t.done

/-- `task.cancel()` (bot.py:112, 128): requests cancellation. -/
def cancelTask : Option TaskHandle → Option TaskHandle
  | none => none
  | some t => some { t with cancelRequested := true }

/-- `button_callback` (bot.py:85–137), restricted to its effect on the two
task globals and the status message it edits into the chat.  Each arm is a
direct transcription of the corresponding `elif` branch. -/
def button_callback (st : BotState) (action : ButtonAction) : BotState × String :=
  match action with
  | .main_menu => (st, "Please choose an option below:")
  | .menu_alerts => (st, "Price Alert Controls:")
  | .menu_reminders => (st, "Presale Reminder Controls:")
  | .start_monitoring =>
    if taskRunning st.monitoring_task then
      (st, "✅ Price alert monitoring is already running.")
    else
      ({ st with monitoring_task := some ⟨st.nextTaskId, false, false⟩,
                 nextTaskId := st.nextTaskId + 1 },
       "▶️ Starting price alert monitoring...")
  | .stop_monitoring =>
    if taskRunning st.monitoring_task then
      ({ st with monitoring_task := cancelTask st.monitoring_task },
       "⏹️ Price alert monitoring stopped.")
    else
      (st, "ℹ️ Price alert monitoring is not currently running.")
  | .start_reminder =>
    if taskRunning st.reminder_task then
      (st, "✅ Presale reminders are already running.")
    else
      ({ st with reminder_task := some ⟨st.nextTaskId, false, false⟩,
                 nextTaskId := st.nextTaskId + 1 },
       "▶️ Starting presale reminders...")
  | .stop_reminder =>
    if taskRunning st.reminder_task then
      ({ st with reminder_task := cancelTask st.reminder_task },
       "⏹️ Presale reminders stopped.")
    else
      (st, "ℹ️ Presale reminders are not currently running.")

/-! ## Configuration loading and validation (bot.py:16–18, 36–44) -/

/-- A process environment. -/
structure Env where
  vars : String → Option String

/-- `os.getenv(key)`. -/
def os_getenv (env : Env) (k : String) : Option String := env.vars k

/-- `os.getenv(key, default)`: the default is used only when the variable
is absent, not when it is set to the empty string. -/
def os_getenv_d (env : Env) (k d : String) : String := (env.vars k).getD d

/-- The hardcoded default bot token (bot.py:16). -/
def DEFAULT_BOT_TOKEN : String := "8359506520:AAGwfIyp67laNrAVpaTRr4WPXhjLhMUzFyM"

/-- The three module-level configuration reads (bot.py:16–18). -/
structure Config where
  TELEGRAM_BOT_TOKEN : String
  TELEGRAM_CHAT_ID : Option String
  QUICKNODE_BSC_URL : Option String

/-- bot.py:16–18. -/
def loadConfig (env : Env) : Config :=
  ⟨os_getenv_d env "TELEGRAM_BOT_TOKEN" DEFAULT_BOT_TOKEN,
   os_getenv env "TELEGRAM_CHAT_ID",
   os_getenv env "QUICKNODE_BSC_URL"⟩

/-- Python truthiness of an optional string (`None` and `""` are falsy). -/
def pyTruthyOpt : Option String → Bool
  | none => false
  | some s => !s.isEmpty

/-- Python `s.startswith(p)` (over the character list; structural so that
it evaluates). -/
def pyStartsWith (s p : String) : Bool := s.data.take p.data.length == p.data

/-- `validate_config` (bot.py:36–44): raises `ValueError` (modelled as
`.error` with the message) on the first failing check, else returns. -/
def validate_config (c : Config) : Except String Unit :=
  if c.TELEGRAM_BOT_TOKEN.isEmpty then
    .error "Error: TELEGRAM_BOT_TOKEN is not set."
  else if !pyTruthyOpt c.TELEGRAM_CHAT_ID then
    .error "Error: TELEGRAM_CHAT_ID is not set."
  else
    match c.QUICKNODE_BSC_URL with
    | none => .error "Error: QUICKNODE_BSC_URL is not set or is invalid."
    | some u =>
      if u.isEmpty || !pyStartsWith u "wss://" then
        .error "Error: QUICKNODE_BSC_URL is not set or is invalid."
      else .ok ()

/-! ## Concrete fixtures used by witnesses and counterexamples -/

/-- A node whose `get_block` raises for every hash. -/
def fetchAlwaysFail : String → Option PyBlock := fun _ => none

/-- A messaging collaborator that always succeeds. -/
def sendAlwaysOk : String → Bool := fun _ => true

/-- An environment whose `TELEGRAM_BOT_TOKEN` is set to the empty string
while the other two variables are valid. -/
def envTokenEmpty : Env :=
  ⟨fun k =>
    if k = "TELEGRAM_BOT_TOKEN" then some ""
    else if k = "TELEGRAM_CHAT_ID" then some "@chan"
    else if k = "QUICKNODE_BSC_URL" then some "wss://node.example" else none⟩

end Bot

namespace Bot

/-! ## Theorems -/

/-- **C1.** For every transaction `tx`, the match predicate of the poll
loop returns `true` iff `tx.to` is non-null, case-insensitively equal to
the configured target contract address, and `tx.value ≥` the configured
minimum value in base units; it returns `false` (and does not error) for
`tx.to = null` regardless of value; and the threshold is inclusive:
`tx.value = MIN_PURCHASE_WEI` matches while `MIN_PURCHASE_WEI - 1` does
not. -/
theorem txMatches_iff_nonnull_addr_value :
    (∀ tx : Tx, txMatches tx = true ↔
        ∃ a, tx.«to» = some a ∧ pyLower a = pyLower TOKEN_CONTRACT_ADDRESS ∧
          MIN_PURCHASE_WEI ≤ tx.value)
    ∧ (∀ v h, txMatches ⟨none, v, h⟩ = false)
    ∧ txMatches ⟨some TOKEN_CONTRACT_ADDRESS, MIN_PURCHASE_WEI, "0xh"⟩ = true
    ∧ txMatches ⟨some TOKEN_CONTRACT_ADDRESS, MIN_PURCHASE_WEI - 1, "0xh"⟩ = false := by
  refine ⟨?_, fun v h => rfl, by decide, by decide⟩
  rintro ⟨o, v, hs⟩
  cases o with
  | none => simp [txMatches]
  | some a =>
    simp only [txMatches, Bool.and_eq_true, Bool.not_eq_true', beq_iff_eq,
      decide_eq_true_eq, Option.some.injEq]
    constructor
    · rintro ⟨⟨hne, hlow⟩, hv⟩
      exact ⟨a, rfl, hlow, hv⟩
    · rintro ⟨a', rfl, hlow, hv⟩
      have hne : a ≠ "" := by
        intro h0
        subst h0
        exact absurd hlow (by decide)
      have hemp : a.isEmpty = false := by
        cases hE : a.isEmpty
        · rfl
        · exact absurd ((String.isEmpty_iff a).mp hE) hne
      exact ⟨⟨hemp, hlow⟩, hv⟩

/-- The dispatch attempts made while processing one block's transaction
list are exactly the matching transactions, in order. -/
theorem processBlockTxs_attempted (sendOk : String → Bool) (txs : List Tx) :
    (processBlockTxs sendOk txs).1 = (txs.filter txMatches).map Tx.hash := by
  induction txs with
  | nil => rfl
  | cons tx rest ih =>
    by_cases h : txMatches tx <;>
      simp [processBlockTxs, List.filter_cons, h, ih]

/-- The dispatch attempts made over a batch of block hashes: matches of the
successfully fetched blocks, in order; a failed fetch contributes nothing
but does not stop the later blocks. -/
theorem processEntries_attempted (fetch : String → Option PyBlock)
    (sendOk : String → Bool) (hs : List String) :
    (processEntries fetch sendOk hs).1
      = hs.flatMap (fun h =>
          match fetch h with
          | none => []
          | some b => (b.transactions.filter txMatches).map Tx.hash) := by
  induction hs with
  | nil => rfl
  | cons h rest ih =>
    cases hf : fetch h <;>
      simp [processEntries, hf, ih, processBlockTxs_attempted]

/-- Every hash in the batch whose fetch raises gets an error log line. -/
theorem processEntries_error_logged (fetch : String → Option PyBlock)
    (sendOk : String → Bool) (hs : List String) :
    ∀ h ∈ hs, fetch h = none →
      "Error processing block " ++ h ∈ (processEntries fetch sendOk hs).2 := by
  induction hs with
  | nil => intro h hmem; cases hmem
  | cons h0 rest ih =>
    intro h hmem hf
    cases hmem with
    | head => simp [processEntries, hf]
    | tail _ hmem' =>
      have := ih h hmem' hf
      cases hf0 : fetch h0 <;> simp [processEntries, hf0, this]

/-- **C4.** For every block containing N matching transactions, a dispatch
failure for one matching transaction does not prevent the other N−1
dispatches from being attempted (the attempted list does not depend on the
send outcomes and always covers every match), does not abort the poll loop
(`processBlockTxs`/`pollIteration` are total and continue past failures),
and does not cause the block to be reprocessed (the filter is left
drained no matter what the send outcomes were). -/
theorem dispatch_failure_isolated :
    (∀ (sendOk sendOk' : String → Bool) (txs : List Tx),
        (processBlockTxs sendOk txs).1 = (processBlockTxs sendOk' txs).1)
    ∧ (∀ (sendOk : String → Bool) (txs : List Tx),
        (processBlockTxs sendOk txs).1 = (txs.filter txMatches).map Tx.hash)
    ∧ (∀ (fetch : String → Option PyBlock) (sendOk : String → Bool)
        (f : BlockFilter),
        (pollIteration fetch sendOk f).filter.pending = []) := by
  refine ⟨?_, processBlockTxs_attempted, fun fetch sendOk f => rfl⟩
  intro sendOk sendOk' txs
  rw [processBlockTxs_attempted, processBlockTxs_attempted]

/-- **C3 (counterexample).** The claim says a failed block fetch is retried
at the same position on the next iteration.  In the code the block filter's
entries are consumed by `get_new_entries` before the fetch is attempted:
with one pending hash `0xdead` whose fetch raises, the iteration logs the
error, the filter is left empty, and the next iteration fetches nothing —
`0xdead` is never retried. -/
theorem fetch_failure_not_retried_cex :
    (pollIteration fetchAlwaysFail sendAlwaysOk ⟨["0xdead"]⟩).fetched = ["0xdead"]
    ∧ (pollIteration fetchAlwaysFail sendAlwaysOk ⟨["0xdead"]⟩).log
        = ["Error processing block 0xdead"]
    ∧ (pollIteration fetchAlwaysFail sendAlwaysOk ⟨["0xdead"]⟩).filter = ⟨[]⟩
    ∧ (pollIteration fetchAlwaysFail sendAlwaysOk
        (pollIteration fetchAlwaysFail sendAlwaysOk ⟨["0xdead"]⟩).filter).fetched
        = [] := by
  refine ⟨rfl, rfl, rfl, rfl⟩

/-- **C3 (amended).** When fetching or processing a single block fails, the
poll loop logs the error and continues with the remaining blocks of the
batch; the failed block is *not* retried: its filter entry was already
consumed, so the filter is left empty and only blocks the node announces
later are ever fetched again. -/
theorem fetch_failure_logged_and_skipped :
    ∀ (fetch : String → Option PyBlock) (sendOk : String → Bool)
      (f : BlockFilter),
      (pollIteration fetch sendOk f).filter.pending = []
      ∧ (pollIteration fetch sendOk f).fetched = f.pending
      ∧ (pollIteration fetch sendOk f).attempted
          = f.pending.flatMap (fun h =>
              match fetch h with
              | none => []
              | some b => (b.transactions.filter txMatches).map Tx.hash)
      ∧ (∀ h ∈ f.pending, fetch h = none →
          "Error processing block " ++ h ∈ (pollIteration fetch sendOk f).log) := by
  intro fetch sendOk f
  exact ⟨rfl, rfl, processEntries_attempted fetch sendOk f.pending,
    processEntries_error_logged fetch sendOk f.pending⟩

/-- Witness for the amended C3 theorem at a concrete input. -/
theorem fetch_failure_logged_and_skipped_witness :
    "0xbeef" ∈ BlockFilter.pending ⟨["0xbeef"]⟩
    ∧ fetchAlwaysFail "0xbeef" = none
    ∧ "Error processing block 0xbeef"
        ∈ (pollIteration fetchAlwaysFail sendAlwaysOk ⟨["0xbeef"]⟩).log :=
  ⟨List.Mem.head _, rfl,
    (fetch_failure_logged_and_skipped fetchAlwaysFail sendAlwaysOk
      ⟨["0xbeef"]⟩).2.2.2 "0xbeef" (List.Mem.head _) rfl⟩

/-- **C2.** The spec says a non-cancellation error makes the loop back off
and re-enter the connecting state, never terminating.  The code logs
`... Reconnecting in 15s...` and sleeps, but there is no surrounding loop:
the function then runs its `finally` and returns.  At the concrete failing
input (an exception escaping the first poll iteration) the run terminates
with `errorReturn`; and on *every* input the connect phase is entered
exactly once — reconnection is structurally impossible. -/
theorem loop_error_terminates_cex :
    (price_alert_loop true fetchAlwaysFail sendAlwaysOk [LoopSignal.exn]).exit
        = LoopExit.errorReturn
    ∧ "An error occurred in the price alert loop. Reconnecting in 15s..."
        ∈ (price_alert_loop true fetchAlwaysFail sendAlwaysOk [LoopSignal.exn]).log
    ∧ "Price alert loop has shut down."
        ∈ (price_alert_loop true fetchAlwaysFail sendAlwaysOk [LoopSignal.exn]).log
    ∧ (∀ (connected : Bool) (fetch : String → Option PyBlock)
        (sendOk : String → Bool) (script : List LoopSignal),
        (price_alert_loop connected fetch sendOk script).connects = 1) := by
  refine ⟨rfl, ?_, ?_, ?_⟩
  · simp [price_alert_loop, priceAlertGo]
  · simp [price_alert_loop, priceAlertGo]
  · intro connected fetch sendOk script
    cases connected <;> simp [price_alert_loop]

/-- **C6 (counterexample).** The claim says stopping the reminder loop
before its first interval elapses means zero reminder messages.  The loop
body sends *first* and sleeps afterwards: with cancellation delivered
during the very first sleep, one message has already been sent. -/
theorem reminder_cancelled_first_sleep_cex :
    reminder_loop [false] = 1 ∧ reminder_loop [false] ≠ 0 := by
  exact ⟨rfl, by decide⟩

/-- Once the reminder loop body starts, at least one message is sent. -/
theorem one_le_reminder_loop : ∀ script : List Bool, 1 ≤ reminder_loop script
  | [] => Nat.le_refl 1
  | true :: rest => by simp [reminder_loop]
  | false :: _ => Nat.le_refl 1

/-- **C6 (amended).** If the reminder loop is started and then stopped
before its first reminder interval elapses, exactly one reminder message is
sent: the loop sends immediately upon starting and only then sleeps, so
every execution of the body sends at least one message. -/
theorem reminder_one_message_before_first_interval :
    reminder_loop [false] = 1 ∧ ∀ script : List Bool, 1 ≤ reminder_loop script :=
  ⟨rfl, one_le_reminder_loop⟩

/-- **C5.** For each loop identity, calling start twice in a row without an
intervening stop leaves exactly one live loop instance — after the first
start the task handle is live, and the second start leaves the whole state
(including the fresh-task counter) unchanged — and the second call reports
"already running". -/
theorem start_twice_single_instance :
    ∀ st : BotState,
      taskRunning (button_callback st .start_monitoring).1.monitoring_task = true
      ∧ (button_callback (button_callback st .start_monitoring).1
          .start_monitoring).1 = (button_callback st .start_monitoring).1
      ∧ (button_callback (button_callback st .start_monitoring).1
          .start_monitoring).2 = "✅ Price alert monitoring is already running."
      ∧ taskRunning (button_callback st .start_reminder).1.reminder_task = true
      ∧ (button_callback (button_callback st .start_reminder).1
          .start_reminder).1 = (button_callback st .start_reminder).1
      ∧ (button_callback (button_callback st .start_reminder).1
          .start_reminder).2 = "✅ Presale reminders are already running." := by
  intro st
  have hfresh : ∀ n : Nat, taskRunning (some ⟨n, false, false⟩) = true :=
    fun _ => rfl
  cases hM : taskRunning st.monitoring_task <;>
    cases hR : taskRunning st.reminder_task <;>
      simp [button_callback, hM, hR, hfresh]

/-- **C8.** The alert-polling loop and the reminder-broadcast loop have
independent start/stop state: each monitoring action leaves the reminder
task handle unchanged, and each reminder action leaves the monitoring task
handle unchanged. -/
theorem loops_independent :
    ∀ st : BotState,
      (button_callback st .start_monitoring).1.reminder_task = st.reminder_task
      ∧ (button_callback st .stop_monitoring).1.reminder_task = st.reminder_task
      ∧ (button_callback st .start_reminder).1.monitoring_task = st.monitoring_task
      ∧ (button_callback st .stop_reminder).1.monitoring_task = st.monitoring_task := by
  intro st
  refine ⟨?_, ?_, ?_, ?_⟩ <;> (simp only [button_callback]; split <;> rfl)

/-- **C7.** The dispatcher converts the wei value to display units only for
the outgoing display string: the caption built for a matching transaction
of 30·10^15 wei shows `0.0300` (independently of the send outcome and the
transaction hash), while the match predicate compares the raw integer wei
value against `MIN_PURCHASE_WEI` — in particular `MIN_PURCHASE_WEI - 1`
does not match even though its display string is identical to that of
`MIN_PURCHASE_WEI` itself. -/
theorem conversion_only_for_display :
    (∀ (sendOk : Bool) (h : String),
        (send_telegram_alert sendOk (from_wei (30 * 10 ^ 15)) h).caption
          = "🚀 *New AgamaCoin Buy Alert!* 🚀\n\nA new investor has just joined the AgamaCoin family!\n\n💰 *Amount:* 0.0300 BNB\n\nLet\x27s give them a warm welcome! 🔥")
    ∧ bnb_amount_formatted (from_wei (30 * 10 ^ 15)) = "0.0300"
    ∧ (∀ (a : String) (v : Nat) (hs : String),
        txMatches ⟨some a, v, hs⟩
          = ((!a.isEmpty && (pyLower a == pyLower TOKEN_CONTRACT_ADDRESS))
              && decide (MIN_PURCHASE_WEI ≤ v)))
    ∧ txMatches ⟨some TOKEN_CONTRACT_ADDRESS, MIN_PURCHASE_WEI - 1, "0xg"⟩ = false
    ∧ bnb_amount_formatted (from_wei (MIN_PURCHASE_WEI - 1))
        = bnb_amount_formatted (from_wei MIN_PURCHASE_WEI) := by
  exact ⟨fun _ _ => rfl, rfl, fun a v hs => rfl, by decide, by decide⟩

/-- **C9.** The literal `0.025` parses to the binary64 value
`7205759403792794 · 2^(-58)` (the round-to-nearest-even image of `1/40`,
within half an ulp); the shortest decimal representation `"0.025"` parses
back to that same double while the shorter candidates `0.02` and `0.03` do
not; `decimal.Decimal("0.025")` is exactly `25/1000`; and the resulting
`MIN_PURCHASE_WEI` is exactly the integer `25·10^15`, so every threshold
comparison is exact integer arithmetic. -/
theorem min_purchase_wei_exact :
    nearestDouble58 (25 / 1000) = MIN_PURCHASE_BNB_float
    ∧ |MIN_PURCHASE_BNB_float - 25 / 1000| < 1 / 2 ^ 59
    ∧ MIN_PURCHASE_BNB_dec.toRat = 25 / 1000
    ∧ nearestDouble58 (2 / 100) ≠ MIN_PURCHASE_BNB_float
    ∧ nearestDouble58 (3 / 100) ≠ MIN_PURCHASE_BNB_float
    ∧ MIN_PURCHASE_WEI = 25000000000000000 := by
  have h25 : (⌊(25 / 1000 * 2 ^ 58 : ℚ)⌋ : ℤ) = 7205759403792793 := by
    rw [Int.floor_eq_iff]; norm_num
  have h2 : (⌊(2 / 100 * 2 ^ 58 : ℚ)⌋ : ℤ) = 5764607523034234 := by
    rw [Int.floor_eq_iff]; norm_num
  have h3 : (⌊(3 / 100 * 2 ^ 58 : ℚ)⌋ : ℤ) = 8646911284551352 := by
    rw [Int.floor_eq_iff]; norm_num
  refine ⟨?_, ?_, ?_, ?_, ?_, by decide⟩
  · simp only [nearestDouble58, roundHalfEven, h25]
    norm_num [MIN_PURCHASE_BNB_float]
  · have hdiff : MIN_PURCHASE_BNB_float - 25 / 1000 = 1 / 720575940379279360 := by
      norm_num [MIN_PURCHASE_BNB_float]
    rw [hdiff, abs_of_pos (by norm_num)]
    norm_num
  · norm_num [Dec.toRat, MIN_PURCHASE_BNB_dec]
  · simp only [nearestDouble58, roundHalfEven, h2]
    norm_num [MIN_PURCHASE_BNB_float]
  · simp only [nearestDouble58, roundHalfEven, h3]
    norm_num [MIN_PURCHASE_BNB_float]

/-- **C10 (counterexample).** The claim says the token error branch of
`validate_config` is unreachable because of the non-empty hardcoded
default.  But `os.getenv` applies the default only when the variable is
absent: with `TELEGRAM_BOT_TOKEN` set to the empty string (and the other
variables valid) the branch fires. -/
theorem token_branch_reachable_cex :
    validate_config (loadConfig envTokenEmpty)
      = Except.error "Error: TELEGRAM_BOT_TOKEN is not set." := rfl

/-- `validate_config` succeeds exactly when the token is non-empty, the
chat id is truthy, and the URL is present and starts with `wss://` (a URL
passing the `startswith` check is automatically non-empty). -/
theorem validate_config_ok_iff (c : Config) :
    validate_config c = Except.ok () ↔
      c.TELEGRAM_BOT_TOKEN.isEmpty = false
      ∧ pyTruthyOpt c.TELEGRAM_CHAT_ID = true
      ∧ ∃ u, c.QUICKNODE_BSC_URL = some u ∧ pyStartsWith u "wss://" = true := by
  obtain ⟨t, ch, url⟩ := c
  unfold validate_config
  cases hti : t.isEmpty with
  | true => simp [hti]
  | false =>
    cases hci : pyTruthyOpt ch with
    | false => simp [hci]
    | true =>
      cases url with
      | none => simp
      | some u =>
        cases hsw : pyStartsWith u "wss://" with
        | true =>
          have hne0 : u ≠ "" := by
            intro h0
            subst h0
            exact absurd hsw (by decide)
          have hie : u.isEmpty = false := by
            cases hE : u.isEmpty
            · rfl
            · exact absurd ((String.isEmpty_iff u).mp hE) hne0
          simp [hie, hsw]
        | false =>
          cases hie : u.isEmpty <;> simp [hie, hsw]

/-- `validate_config` reports the token error exactly when the token
resolves to the empty string. -/
theorem validate_config_token_error_iff (c : Config) :
    validate_config c = Except.error "Error: TELEGRAM_BOT_TOKEN is not set."
      ↔ c.TELEGRAM_BOT_TOKEN.isEmpty = true := by
  obtain ⟨t, ch, url⟩ := c
  unfold validate_config
  cases hti : t.isEmpty with
  | true => simp [hti]
  | false =>
    cases hci : pyTruthyOpt ch with
    | false => simp [hci]
    | true =>
      cases url with
      | none => simp
      | some u =>
        cases hcond : (u.isEmpty || !pyStartsWith u "wss://") <;> simp [hcond]

/-- **C10 (amended).** The token error branch is reachable exactly when the
environment variable `TELEGRAM_BOT_TOKEN` is set to the empty string (if it
is absent the non-empty hardcoded default makes the check pass); and
`validate_config` succeeds exactly when the resolved token is non-empty,
the chat id is set and non-empty, and the node URL is set and starts with
`wss://`. -/
theorem validate_config_error_conditions :
    ∀ env : Env,
      (validate_config (loadConfig env)
          = Except.error "Error: TELEGRAM_BOT_TOKEN is not set."
        ↔ env.vars "TELEGRAM_BOT_TOKEN" = some "")
      ∧ (validate_config (loadConfig env) = Except.ok ()
        ↔ env.vars "TELEGRAM_BOT_TOKEN" ≠ some ""
          ∧ pyTruthyOpt (env.vars "TELEGRAM_CHAT_ID") = true
          ∧ ∃ u, env.vars "QUICKNODE_BSC_URL" = some u
              ∧ pyStartsWith u "wss://" = true) := by
  intro env
  have htok : (loadConfig env).TELEGRAM_BOT_TOKEN.isEmpty = true
      ↔ env.vars "TELEGRAM_BOT_TOKEN" = some "" := by
    show ((env.vars "TELEGRAM_BOT_TOKEN").getD DEFAULT_BOT_TOKEN).isEmpty = true ↔ _
    cases hv : env.vars "TELEGRAM_BOT_TOKEN" with
    | none => simp [show DEFAULT_BOT_TOKEN.isEmpty = false from rfl]
    | some s => simp [String.isEmpty_iff]
  constructor
  · rw [validate_config_token_error_iff]
    exact htok
  · rw [validate_config_ok_iff]
    have hch : (loadConfig env).TELEGRAM_CHAT_ID = env.vars "TELEGRAM_CHAT_ID" := rfl
    have hurl : (loadConfig env).QUICKNODE_BSC_URL = env.vars "QUICKNODE_BSC_URL" := rfl
    rw [hch, hurl]
    constructor
    · rintro ⟨h1, h2, h3⟩
      refine ⟨fun hx => ?_, h2, h3⟩
      have hT := htok.mpr hx
      rw [hT] at h1
      cases h1
    · rintro ⟨h1, h2, h3⟩
      refine ⟨?_, h2, h3⟩
      cases hE : (loadConfig env).TELEGRAM_BOT_TOKEN.isEmpty
      · rfl
      · exact absurd (htok.mp hE) h1

end Bot
